import Mathlib

/-!
Verification of the budget-explorer data pipeline (src/app.py): numeric
coercion of the seven numeric columns, ministry-name canonicalization,
the Total Allocation fallback, watchlist filtering, yearly totals with
percent shares, the key-insight lookups, and the INR currency formatter.

Pandas/NumPy float cells are modelled by `PF`: NaN (which is also the
missing-value marker in a pandas float column), positive and negative
infinity, and finite values as exact rationals.
-/

set_option autoImplicit false
set_option maxRecDepth 8192

/-- Pandas/NumPy float value: NaN (the missing marker), an infinity, or a
finite value modelled as a rational. -/
inductive PF where
  | nan : PF
  | pinf : PF
  | ninf : PF
  | fin : ℚ → PF
deriving DecidableEq

/-- IEEE-style addition as NumPy performs it: NaN absorbs, opposite
infinities give NaN, an infinity absorbs finite values. -/
def PF.add : PF → PF → PF
  | .nan, _ => .nan
  | _, .nan => .nan
  | .pinf, .ninf => .nan
  | .ninf, .pinf => .nan
  | .pinf, _ => .pinf
  | _, .pinf => .pinf
  | .ninf, _ => .ninf
  | _, .ninf => .ninf
  | .fin a, .fin b => .fin (a + b)

/-- IEEE-style multiplication: NaN absorbs, infinity times zero is NaN,
otherwise signs combine. -/
def PF.mul : PF → PF → PF
  | .nan, _ => .nan
  | _, .nan => .nan
  | .pinf, .pinf => .pinf
  | .pinf, .ninf => .ninf
  | .ninf, .pinf => .ninf
  | .ninf, .ninf => .pinf
  | .pinf, .fin b => if 0 < b then .pinf else if b < 0 then .ninf else .nan
  | .fin a, .pinf => if 0 < a then .pinf else if a < 0 then .ninf else .nan
  | .ninf, .fin b => if 0 < b then .ninf else if b < 0 then .pinf else .nan
  | .fin a, .ninf => if 0 < a then .ninf else if a < 0 then .pinf else .nan
  | .fin a, .fin b => .fin (a * b)

/-- IEEE-style division: NaN absorbs, infinity over infinity is NaN, a
finite value over an infinity is zero, and a finite value over zero is a
signed infinity (NaN for zero over zero) — pandas raises no error here. -/
def PF.div : PF → PF → PF
  | .nan, _ => .nan
  | _, .nan => .nan
  | .pinf, .pinf => .nan
  | .pinf, .ninf => .nan
  | .ninf, .pinf => .nan
  | .ninf, .ninf => .nan
  | .pinf, .fin b => if 0 ≤ b then .pinf else .ninf
  | .ninf, .fin b => if 0 ≤ b then .ninf else .pinf
  | .fin _, .pinf => .fin 0
  | .fin _, .ninf => .fin 0
  | .fin a, .fin b =>
      if b = 0 then (if 0 < a then .pinf else if a < 0 then .ninf else .nan)
      else .fin (a / b)

/-- One step of pandas `Series.sum` with its default `skipna=True`:
NaN entries are skipped, everything else is added. -/
def PF.nstep (acc x : PF) : PF :=
  match x with
  | .nan => acc
  | y => PF.add acc y

/-- Pandas `groupby(...)["col"].sum()` over the values of one group:
NaN-skipping sum starting from 0, so an all-NaN group sums to 0. -/
def nansum (l : List PF) : PF :=
  l.foldl PF.nstep (PF.fin 0)

/-- Plain (non-skipping) float sum, used to state properties about the sum
of the percent-share column: NaN among the summands propagates. -/
def pfSum (l : List PF) : PF :=
  l.foldl PF.add (PF.fin 0)

/-- Rational value of the NaN-skipping sum: adds the finite entries only. -/
def sumFin : List PF → ℚ
  | [] => 0
  | .fin q :: t => q + sumFin t
  | _ :: t => sumFin t

/-- Numeric value of a list of decimal digit characters. -/
def digitsToNat (l : List Char) : Nat :=
  l.foldl (fun acc c => acc * 10 + (c.toNat - 48)) 0

/-- Parse of a decimal literal (optional sign, integer part, optional
fractional part), as Python float conversion accepts budget cells; any
other shape fails. -/
def parseNum (s : String) : Option ℚ :=
  let cs := s.toList
  let signRest : ℚ × List Char :=
    match cs with
    | '-' :: r => (-1, r)
    | '+' :: r => (1, r)
    | r => (1, r)
  let sign := signRest.1
  let rest := signRest.2
  let intPart := rest.takeWhile Char.isDigit
  let rest2 := rest.dropWhile Char.isDigit
  match rest2 with
  | [] =>
      if intPart.isEmpty then none
      else some (sign * (digitsToNat intPart : ℚ))
  | '.' :: fracCs =>
      let fracPart := fracCs.takeWhile Char.isDigit
      let rest3 := fracCs.dropWhile Char.isDigit
      if rest3.isEmpty && (!intPart.isEmpty || !fracPart.isEmpty) then
        some (sign * ((digitsToNat intPart : ℚ) +
          (digitsToNat fracPart : ℚ) / (10 : ℚ) ^ fracPart.length))
      else none
  | _ => none

/-- The `replace` mapping of app.py line 32, with pandas whole-cell
semantics: a cell that is exactly a comma becomes the empty string, a cell
that is exactly a dash becomes NaN (`none`), and every other cell —
including a cell merely containing a comma, such as a thousands-separated
number — passes through unchanged. -/
def replaceNumTokens (s : String) : Option String :=
  if s = "," then some ""
  else if s = "-" then none
  else some s

/-- Pandas `to_numeric(..., errors=coerce)`: NaN stays NaN, a parseable
cell becomes its finite value, and a parse failure coerces to NaN instead
of raising. -/
def toNumericCoerce : Option String → PF
  | none => PF.nan
  | some s =>
      match parseNum s with
      | some q => PF.fin q
      | none => PF.nan

/-- Coercion of one numeric cell, app.py line 32: the whole-cell replace
followed by the coercing numeric parse. -/
def coerceCell (s : String) : PF :=
  toNumericCoerce (replaceNumTokens s)

/-- Ministry-name canonicalization of app.py lines 23-26: the two spelling
variants map to the canonical name, all other names pass through. -/
def canonMinistry (s : String) : String :=
  if s = "MINISTRY OF AGRICULTURE AND FARMERS WELFARE" then
    "MINISTRY OF AGRICULTURE AND FARMERS\x27 WELFARE"
  else if s = "MINISTRY OF AGRICULTURE" then
    "MINISTRY OF AGRICULTURE AND FARMERS\x27 WELFARE"
  else s

/-- One raw CSV row: the ministry name, the year label, and the seven
numeric columns as text cells. -/
structure RawRow where
  ministryName : String
  year : String
  revenuePlan : String
  capitalPlan : String
  totalPlan : String
  revenueNonPlan : String
  capitalNonPlan : String
  totalNonPlan : String
  totalPlanNonPlan : String
deriving DecidableEq

/-- One row after `load_data`: canonical name, truncated year label, the
seven coerced numeric columns, and the derived Total Allocation. -/
structure NormRow where
  ministryName : String
  year : String
  revenuePlan : PF
  capitalPlan : PF
  totalPlan : PF
  revenueNonPlan : PF
  capitalNonPlan : PF
  totalNonPlan : PF
  totalPlanNonPlan : PF
  totalAllocation : PF
deriving DecidableEq

/-- Pandas `Series.fillna`: keep the value unless it is NaN, in which case
take the fallback. -/
def fillna (a b : PF) : PF :=
  match a with
  | .nan => b
  | x => x

/-- The cleaning of `load_data` applied to one row: canonicalize the name,
coerce the seven numeric cells, derive Total Allocation as the combined
total filled from the plan total (app.py line 35), and truncate the year
label to its first nine characters (line 38). -/
def normalizeRow (r : RawRow) : NormRow :=
  { ministryName := canonMinistry r.ministryName
    year := r.year.take 9
    revenuePlan := coerceCell r.revenuePlan
    capitalPlan := coerceCell r.capitalPlan
    totalPlan := coerceCell r.totalPlan
    revenueNonPlan := coerceCell r.revenueNonPlan
    capitalNonPlan := coerceCell r.capitalNonPlan
    totalNonPlan := coerceCell r.totalNonPlan
    totalPlanNonPlan := coerceCell r.totalPlanNonPlan
    totalAllocation := fillna (coerceCell r.totalPlanNonPlan) (coerceCell r.totalPlan) }

/-- The hard-coded watchlist of app.py lines 44-50. -/
def focus_ministries : List String :=
  ["MINISTRY OF DEFENCE",
   "MINISTRY OF FINANCE",
   "MINISTRY OF HOME AFFAIRS",
   "MINISTRY OF AGRICULTURE AND FARMERS\x27 WELFARE",
   "MINISTRY OF HEALTH AND FAMILY WELFARE"]

/-- The watchlist filter of app.py line 52. -/
def dfFocus (rows : List NormRow) : List NormRow :=
  rows.filter (fun r => focus_ministries.contains r.ministryName)

/-- The yearly total of app.py line 55: the NaN-skipping sum of Total
Allocation over the rows of one year. -/
def yearly_total (rows : List NormRow) (y : String) : PF :=
  nansum ((rows.filter (fun r => r.year == y)).map (fun r => r.totalAllocation))

/-- The percent share of app.py lines 59-60 for one row after the merge:
its Total Allocation divided by its year's total, times 100. -/
def percentOfTotal (rows : List NormRow) (r : NormRow) : PF :=
  PF.mul (PF.div r.totalAllocation (yearly_total rows r.year)) (PF.fin 100)

/-- The key-insight lookup of app.py lines 92-97: filter on ministry and
year, take the Total Allocation column, and take element 0 with `.iloc`,
which raises an IndexError when the selection is empty. -/
def lookupAllocation (rows : List NormRow) (m y : String) : Except String PF :=
  match (rows.filter (fun r => r.ministryName == m && r.year == y)).map
      (fun r => r.totalAllocation) with
  | [] => Except.error ("IndexError")
  | v :: _ => Except.ok v

/-- Round half to even, the rounding Python string formatting applies. -/
def rhe (q : ℚ) : ℤ :=
  let f := ⌊q⌋
  let r := q - (f : ℚ)
  if r < 1 / 2 then f
  else if 1 / 2 < r then f + 1
  else if f % 2 = 0 then f else f + 1

/-- Left-pad a digit string with zeros to the requested width. -/
def padZeros (s : String) (d : Nat) : String :=
  (List.replicate (d - s.length) '0').asString ++ s

/-- Python fixed-point formatting of a numeric value with `d` decimals:
round half to even at the last decimal, keep the minus sign of a negative
input even when it rounds to zero. -/
def fmtFixed (x : ℚ) (d : Nat) : String :=
  let n := rhe (x * (10 : ℚ) ^ d)
  let sign := if x < 0 then "-" else ""
  let m := n.natAbs
  if d = 0 then sign ++ toString m
  else sign ++ toString (m / 10 ^ d) ++ "." ++ padZeros (toString (m % 10 ^ d)) d

/-- The INR formatter of app.py lines 63-69. -/
def inr (x : ℚ) : String :=
  if x ≥ 100000 then "₹" ++ fmtFixed (x / 100000) 1 ++ " Lakh Cr"
  else if x ≥ 1000 then "₹" ++ fmtFixed (x / 1000) 0 ++ " Thousand Cr"
  else "₹" ++ fmtFixed x 0 ++ " Cr"

/-- Rendering of a rupee amount as the spec describes it: a unit label, the
scaled value, and the number of decimal places. -/
structure Rendering where
  unit : String
  scaled : ℚ
  decimals : Nat
deriving DecidableEq

/-- Rendering choice written from the spec text: at least 100000 gives
Lakh Cr with one decimal after dividing by 100000, at least 1000 gives
Thousand Cr with zero decimals after dividing by 1000, anything else gives
Cr with zero decimals. -/
def inrSpec (x : ℚ) : Rendering :=
  if x ≥ 100000 then ⟨" Lakh Cr", x / 100000, 1⟩
  else if x ≥ 1000 then ⟨" Thousand Cr", x / 1000, 0⟩
  else ⟨" Cr", x, 0⟩

/-- Realization of a spec rendering as the displayed string. -/
def render (r : Rendering) : String :=
  "₹" ++ fmtFixed r.scaled r.decimals ++ r.unit

/-- Raw row with the given ministry, year, plan total and combined total;
the other five numeric cells hold the placeholder dash. -/
def mkRaw (m y tp tpnp : String) : RawRow :=
  { ministryName := m
    year := y
    revenuePlan := "-"
    capitalPlan := "-"
    totalPlan := tp
    revenueNonPlan := "-"
    capitalNonPlan := "-"
    totalNonPlan := "-"
    totalPlanNonPlan := tpnp }

/-- Two watchlist rows of one year whose allocations cancel to a zero
yearly total. -/
def rows_zero_total : List RawRow :=
  [mkRaw ("MINISTRY OF DEFENCE") ("2014-2015") ("-") ("100"),
   mkRaw ("MINISTRY OF FINANCE") ("2014-2015") ("-") ("-100")]

/-- One watchlist row whose numeric cells are all the placeholder dash, so
its Total Allocation is missing. -/
def rows_all_missing : List RawRow :=
  [mkRaw ("MINISTRY OF DEFENCE") ("2015-2016") ("-") ("-")]

/-- One watchlist row that is present but not for the queried pair. -/
def rows_other_pair : List RawRow :=
  [mkRaw ("MINISTRY OF FINANCE") ("2020-2021") ("-") ("500")]

/-- One watchlist row with a non-missing zero allocation, making the
yearly total zero without any missing input. -/
def rows_zero_alloc : List RawRow :=
  [mkRaw ("MINISTRY OF DEFENCE") ("2014-2015") ("-") ("0")]

/-- Two watchlist rows of one year with allocations 100 and 300, the
share-calculator scenario of the spec. -/
def rows_quarters : List RawRow :=
  [mkRaw ("MINISTRY OF DEFENCE") ("2020-2021") ("-") ("100"),
   mkRaw ("MINISTRY OF FINANCE") ("2020-2021") ("-") ("300")]

/-- Coercion of any cell yields NaN or a finite value, never an infinity. -/
theorem coerce_shape (s : String) :
    coerceCell s = PF.nan ∨ ∃ q, coerceCell s = PF.fin q := by
  by_cases h1 : s = ","
  · subst h1; left; rfl
  · by_cases h2 : s = "-"
    · subst h2; left; rfl
    · unfold coerceCell replaceNumTokens toNumericCoerce
      rw [if_neg h1, if_neg h2]
      cases hp : parseNum s with
      | none => left; simp [hp]
      | some q => right; exact ⟨q, by simp [hp]⟩

/-- Fallback-filling two NaN-or-finite values yields a NaN-or-finite
value. -/
theorem fillna_shape (a b : PF)
    (ha : a = PF.nan ∨ ∃ q, a = PF.fin q)
    (hb : b = PF.nan ∨ ∃ q, b = PF.fin q) :
    fillna a b = PF.nan ∨ ∃ q, fillna a b = PF.fin q := by
  rcases ha with rfl | ⟨q, rfl⟩
  · exact hb
  · right; exact ⟨q, rfl⟩

/-- Total Allocation of a normalized row is NaN or finite, never an
infinity. -/
theorem alloc_shape (raw : RawRow) :
    (normalizeRow raw).totalAllocation = PF.nan ∨
      ∃ q, (normalizeRow raw).totalAllocation = PF.fin q :=
  fillna_shape _ _ (coerce_shape _) (coerce_shape _)

/-- Total Allocation of any row of the load_data output is NaN or finite. -/
theorem pipeline_alloc_shape (raws : List RawRow) (r : NormRow)
    (h : r ∈ raws.map normalizeRow) :
    r.totalAllocation = PF.nan ∨ ∃ q, r.totalAllocation = PF.fin q := by
  rcases List.mem_map.1 h with ⟨raw, _, rfl⟩
  exact alloc_shape raw

/-- Membership in the watchlist-filtered table implies membership in the
underlying table. -/
theorem mem_dfFocus (rows : List NormRow) (r : NormRow) (h : r ∈ dfFocus rows) :
    r ∈ rows :=
  List.mem_of_mem_filter h

/-- A NaN-skipping fold over an all-NaN list leaves the accumulator
unchanged. -/
theorem foldl_nstep_allnan : ∀ (l : List PF), (∀ x ∈ l, x = PF.nan) →
    ∀ acc : PF, l.foldl PF.nstep acc = acc
  | [], _, _ => rfl
  | x :: t, h, acc => by
      have hx := h x (List.mem_cons_self x t)
      subst hx
      have := foldl_nstep_allnan t (fun y hy => h y (List.mem_cons_of_mem _ hy)) acc
      simpa [PF.nstep] using this

/-- A NaN-skipping fold over an all-finite list adds up the finite
values. -/
theorem foldl_nstep_allfin : ∀ (l : List PF), (∀ x ∈ l, ∃ q, x = PF.fin q) →
    ∀ a : ℚ, l.foldl PF.nstep (PF.fin a) = PF.fin (a + sumFin l)
  | [], _, a => by simp [sumFin]
  | x :: t, h, a => by
      rcases h x (List.mem_cons_self x t) with ⟨q, hq⟩
      subst hq
      have ht : ∀ y ∈ t, ∃ p, y = PF.fin p :=
        fun y hy => h y (List.mem_cons_of_mem _ hy)
      have := foldl_nstep_allfin t ht (a + q)
      simpa [sumFin, PF.nstep, PF.add, add_assoc] using this

/-- Plain float summation of the percent shares of an all-finite list with
a nonzero total adds up the scaled shares. -/
theorem foldl_add_percents : ∀ (l : List PF) (T : ℚ), T ≠ 0 →
    (∀ x ∈ l, ∃ q, x = PF.fin q) →
    ∀ a : ℚ,
    (l.map (fun x => PF.mul (PF.div x (PF.fin T)) (PF.fin 100))).foldl PF.add (PF.fin a) =
      PF.fin (a + sumFin l / T * 100)
  | [], _, _, _, a => by simp [sumFin]
  | x :: t, T, hT, h, a => by
      rcases h x (List.mem_cons_self x t) with ⟨q, hq⟩
      subst hq
      have ht : ∀ y ∈ t, ∃ p, y = PF.fin p :=
        fun y hy => h y (List.mem_cons_of_mem _ hy)
      have hrec := foldl_add_percents t T hT ht (a + q / T * 100)
      have hhead : PF.mul (PF.div (PF.fin q) (PF.fin T)) (PF.fin 100) =
          PF.fin (q / T * 100) := by
        simp [PF.div, PF.mul, hT]
      simp only [List.map_cons, List.foldl_cons]
      rw [hhead]
      rw [show PF.add (PF.fin a) (PF.fin (q / T * 100)) = PF.fin (a + q / T * 100) from rfl]
      rw [hrec]
      congr 1
      simp only [sumFin]
      ring

/-- C1: for every row, the derived Total Allocation equals the combined
Total Plan & Non-Plan cell when it is non-missing, else the Total (Plan)
cell when that is non-missing, else it is missing — it is never produced
by any other arithmetic such as summing Plan and Non-Plan fields. -/
theorem c1_total_allocation_fallback (r : RawRow) :
    (normalizeRow r).totalAllocation =
      (if coerceCell r.totalPlanNonPlan ≠ PF.nan then coerceCell r.totalPlanNonPlan
       else if coerceCell r.totalPlan ≠ PF.nan then coerceCell r.totalPlan
       else PF.nan) := by
  have hEq : (normalizeRow r).totalAllocation =
      fillna (coerceCell r.totalPlanNonPlan) (coerceCell r.totalPlan) := rfl
  rw [hEq]
  rcases coerce_shape r.totalPlanNonPlan with h | ⟨q, h⟩
  · rw [h]
    rcases coerce_shape r.totalPlan with h2 | ⟨p, h2⟩
    · rw [h2]; simp [fillna]
    · rw [h2]; simp [fillna]
  · rw [h]; simp [fillna]

/-- C5: the whole-cell replace of app.py line 32 does not strip a
thousands separator inside a cell, so the cell 1,234 coerces to missing
while the same number without the separator coerces to 1234 — the claimed
round trip fails. -/
theorem c5_comma_cell_not_stripped :
    replaceNumTokens ("1,234") = some ("1,234") ∧
    coerceCell ("1,234") = PF.nan ∧
    coerceCell ("1234") = PF.fin 1234 := by
  with_unfolding_all decide

/-- C7: a placeholder-dash cell coerces to missing and not to zero, and
every cell whose contents fail to parse as a number coerces to missing
instead of aborting the load. -/
theorem c7_bad_cells_coerce_to_missing :
    coerceCell ("-") = PF.nan ∧
    coerceCell ("-") ≠ PF.fin 0 ∧
    (∀ s : String, parseNum s = none → coerceCell s = PF.nan) := by
  refine ⟨by decide, by decide, ?_⟩
  intro s hp
  by_cases h1 : s = ","
  · subst h1; rfl
  · by_cases h2 : s = "-"
    · subst h2; rfl
    · unfold coerceCell replaceNumTokens toNumericCoerce
      rw [if_neg h1, if_neg h2]
      simp [hp]

/-- Witness for C7 at the unparseable cell 12x4. -/
theorem c7_bad_cells_coerce_to_missing_witness :
    coerceCell ("12x4") = PF.nan :=
  c7_bad_cells_coerce_to_missing.2.2 ("12x4") (by decide)

/-- C8: the ministry-name canonicalization is idempotent — applying the
mapping twice equals applying it once, every canonical output is a fixed
point, and unmapped names pass through unchanged. -/
theorem c8_canon_idempotent (s : String) :
    canonMinistry (canonMinistry s) = canonMinistry s := by
  by_cases h1 : s = "MINISTRY OF AGRICULTURE AND FARMERS WELFARE"
  · subst h1; decide
  · by_cases h2 : s = "MINISTRY OF AGRICULTURE"
    · subst h2; decide
    · simp only [canonMinistry, if_neg h1, if_neg h2]

/-- C2 counterexample: in a year whose watchlist yearly total is zero
(two allocations cancel), the row holding the positive allocation gets a
percent share of positive infinity — the division by zero happens and the
result is not a missing value, refuting the claim as stated. -/
theorem c2_counterexample :
    normalizeRow (mkRaw ("MINISTRY OF DEFENCE") ("2014-2015") ("-") ("100")) ∈
      dfFocus (rows_zero_total.map normalizeRow) ∧
    yearly_total (dfFocus (rows_zero_total.map normalizeRow)) ("2014-2015") = PF.fin 0 ∧
    percentOfTotal (dfFocus (rows_zero_total.map normalizeRow))
      (normalizeRow (mkRaw ("MINISTRY OF DEFENCE") ("2014-2015") ("-") ("100"))) = PF.pinf ∧
    percentOfTotal (dfFocus (rows_zero_total.map normalizeRow))
      (normalizeRow (mkRaw ("MINISTRY OF DEFENCE") ("2014-2015") ("-") ("100"))) ≠ PF.nan := by
  with_unfolding_all decide

/-- C2 amended: when a year's watchlist total is zero, the percent share
of each row of that year whose allocation is missing or zero is NaN (the
missing marker); the division raises no error, but a row with a nonzero
allocation in such a year yields an infinity instead. -/
theorem c2_amended (rows : List NormRow) (r : NormRow)
    (_hmem : r ∈ dfFocus rows)
    (htot : yearly_total (dfFocus rows) r.year = PF.fin 0)
    (halloc : r.totalAllocation = PF.nan ∨ r.totalAllocation = PF.fin 0) :
    percentOfTotal (dfFocus rows) r = PF.nan := by
  unfold percentOfTotal
  rw [htot]
  rcases halloc with h | h <;> rw [h] <;> with_unfolding_all decide

/-- Witness for C2 on a one-row table whose single allocation is missing. -/
theorem c2_amended_witness :
    percentOfTotal (dfFocus (rows_all_missing.map normalizeRow))
      (normalizeRow (mkRaw ("MINISTRY OF DEFENCE") ("2015-2016") ("-") ("-"))) = PF.nan :=
  c2_amended (rows_all_missing.map normalizeRow)
    (normalizeRow (mkRaw ("MINISTRY OF DEFENCE") ("2015-2016") ("-") ("-")))
    (by with_unfolding_all decide) (by with_unfolding_all decide)
    (Or.inl (by with_unfolding_all decide))

/-- C3 counterexample: a year all of whose watchlist rows have a missing
Total Allocation gets yearly total 0 — reported as zero, not as missing,
refuting the claim as stated. -/
theorem c3_counterexample :
    (∀ r ∈ dfFocus (rows_all_missing.map normalizeRow), r.totalAllocation = PF.nan) ∧
    dfFocus (rows_all_missing.map normalizeRow) ≠ [] ∧
    yearly_total (dfFocus (rows_all_missing.map normalizeRow)) ("2015-2016") = PF.fin 0 ∧
    yearly_total (dfFocus (rows_all_missing.map normalizeRow)) ("2015-2016") ≠ PF.nan := by
  with_unfolding_all decide

/-- C3 amended: rows with a missing Total Allocation are skipped by the
yearly sum, so a year whose contributing rows are all missing gets the
aggregate 0 — a number, never the missing marker. -/
theorem c3_amended (rows : List NormRow) (y : String)
    (hall : ∀ r ∈ dfFocus rows, r.year = y → r.totalAllocation = PF.nan) :
    yearly_total (dfFocus rows) y = PF.fin 0 ∧
    yearly_total (dfFocus rows) y ≠ PF.nan := by
  have h0 : yearly_total (dfFocus rows) y = PF.fin 0 := by
    unfold yearly_total nansum
    apply foldl_nstep_allnan
    intro x hx
    rcases List.mem_map.1 hx with ⟨r, hr, rfl⟩
    rcases List.mem_filter.1 hr with ⟨hmem, hy⟩
    exact hall r hmem (by simpa using hy)
  refine ⟨h0, ?_⟩
  rw [h0]
  decide

/-- Witness for C3 on the one-row all-missing table. -/
theorem c3_amended_witness :
    yearly_total (dfFocus (rows_all_missing.map normalizeRow)) ("2015-2016") = PF.fin 0 ∧
    yearly_total (dfFocus (rows_all_missing.map normalizeRow)) ("2015-2016") ≠ PF.nan :=
  c3_amended (rows_all_missing.map normalizeRow) ("2015-2016")
    (by with_unfolding_all decide)

/-- C4 counterexample: with one Finance row loaded, looking up the absent
pair Defence 2014-2015 reaches the unchecked element-0 access and is an
IndexError, not a handled no-data result — refuting the claim as stated. -/
theorem c4_counterexample :
    lookupAllocation (dfFocus (rows_other_pair.map normalizeRow))
      ("MINISTRY OF DEFENCE") ("2014-2015") = Except.error ("IndexError") := by
  with_unfolding_all rfl

/-- C4 amended: a (ministry, year) selection with zero matching rows makes
the key-insight lookup raise an IndexError from the unchecked element-0
access; no explicit no-data condition is produced. -/
theorem c4_amended (rows : List NormRow) (m y : String)
    (h : (dfFocus rows).filter (fun r => r.ministryName == m && r.year == y) = []) :
    lookupAllocation (dfFocus rows) m y = Except.error ("IndexError") := by
  unfold lookupAllocation
  rw [h]
  rfl

/-- Witness for C4 on the empty table. -/
theorem c4_amended_witness :
    lookupAllocation (dfFocus []) ("MINISTRY OF HOME AFFAIRS") ("2019-2020") =
      Except.error ("IndexError") :=
  c4_amended [] ("MINISTRY OF HOME AFFAIRS") ("2019-2020") (by rfl)

/-- C6 counterexample: a year with a single watchlist row whose allocation
is the non-missing value 0 has no missing contributing row, yet the sum of
its percent shares is NaN (0 divided by the zero yearly total), not 100 —
refuting the claim as stated. -/
theorem c6_counterexample :
    (∀ r ∈ dfFocus (rows_zero_alloc.map normalizeRow), r.totalAllocation ≠ PF.nan) ∧
    pfSum (((dfFocus (rows_zero_alloc.map normalizeRow)).filter
        (fun r => r.year == "2014-2015")).map
      (fun r => percentOfTotal (dfFocus (rows_zero_alloc.map normalizeRow)) r)) = PF.nan ∧
    pfSum (((dfFocus (rows_zero_alloc.map normalizeRow)).filter
        (fun r => r.year == "2014-2015")).map
      (fun r => percentOfTotal (dfFocus (rows_zero_alloc.map normalizeRow)) r)) ≠
      PF.fin 100 := by
  with_unfolding_all decide

/-- C6 amended: for every year of the watchlist-filtered table, if no
contributing row has a missing Total Allocation and the year's total is
nonzero, the percent shares of that year sum exactly to 100. -/
theorem c6_amended (raws : List RawRow) (y : String)
    (hnm : ∀ r ∈ dfFocus (raws.map normalizeRow), r.year = y → r.totalAllocation ≠ PF.nan)
    (hT : yearly_total (dfFocus (raws.map normalizeRow)) y ≠ PF.fin 0) :
    pfSum (((dfFocus (raws.map normalizeRow)).filter (fun r => r.year == y)).map
      (fun r => percentOfTotal (dfFocus (raws.map normalizeRow)) r)) = PF.fin 100 := by
  have hfinR : ∀ r ∈ (dfFocus (raws.map normalizeRow)).filter (fun r => r.year == y),
      ∃ q, r.totalAllocation = PF.fin q := by
    intro r hr
    rcases List.mem_filter.1 hr with ⟨hmem, hy⟩
    have hyear : r.year = y := by simpa using hy
    rcases pipeline_alloc_shape raws r (mem_dfFocus _ r hmem) with h | h
    · exact absurd h (hnm r hmem hyear)
    · exact h
  have hfinL : ∀ x ∈ ((dfFocus (raws.map normalizeRow)).filter (fun r => r.year == y)).map
      (fun r => r.totalAllocation), ∃ q, x = PF.fin q := by
    intro x hx
    rcases List.mem_map.1 hx with ⟨r, hr, rfl⟩
    exact hfinR r hr
  have hyt : yearly_total (dfFocus (raws.map normalizeRow)) y =
      PF.fin (sumFin (((dfFocus (raws.map normalizeRow)).filter (fun r => r.year == y)).map
        (fun r => r.totalAllocation))) := by
    unfold yearly_total nansum
    rw [foldl_nstep_allfin _ hfinL 0, zero_add]
  have hTQ : sumFin (((dfFocus (raws.map normalizeRow)).filter (fun r => r.year == y)).map
      (fun r => r.totalAllocation)) ≠ 0 := by
    intro h0
    apply hT
    rw [hyt, h0]
  have hmapeq : ((dfFocus (raws.map normalizeRow)).filter (fun r => r.year == y)).map
      (fun r => percentOfTotal (dfFocus (raws.map normalizeRow)) r) =
      (((dfFocus (raws.map normalizeRow)).filter (fun r => r.year == y)).map
        (fun r => r.totalAllocation)).map
        (fun x => PF.mul (PF.div x (PF.fin (sumFin (((dfFocus (raws.map normalizeRow)).filter
          (fun r => r.year == y)).map (fun r => r.totalAllocation))))) (PF.fin 100)) := by
    rw [List.map_map]
    apply List.map_congr_left
    intro r hr
    have hyear : r.year = y := by simpa using (List.mem_filter.1 hr).2
    simp only [Function.comp]
    unfold percentOfTotal
    rw [hyear, hyt]
  rw [hmapeq]
  unfold pfSum
  rw [foldl_add_percents _ _ hTQ hfinL 0]
  rw [zero_add, div_self hTQ, one_mul]

/-- Witness for C6 on the spec scenario: allocations 100 and 300 in one
year give shares 25 and 75 summing to 100. -/
theorem c6_amended_witness :
    pfSum (((dfFocus (rows_quarters.map normalizeRow)).filter
        (fun r => r.year == "2020-2021")).map
      (fun r => percentOfTotal (dfFocus (rows_quarters.map normalizeRow)) r)) =
      PF.fin 100 :=
  c6_amended rows_quarters ("2020-2021") (by with_unfolding_all decide)
    (by with_unfolding_all decide)

/-- C9: for every non-negative rupee amount the INR formatter picks the
bucket the spec describes — Lakh Cr with one decimal from 100000 up after
dividing by 100000, Thousand Cr with zero decimals from 1000 up after
dividing by 1000, else plain Cr with zero decimals. -/
theorem c9_inr_magnitude_buckets (x : ℚ) (_hx : 0 ≤ x) :
    inr x = render (inrSpec x) := by
  by_cases h1 : x ≥ 100000
  · simp [inr, inrSpec, render, h1]
  · by_cases h2 : x ≥ 1000
    · simp [inr, inrSpec, render, h1, h2]
    · simp [inr, inrSpec, render, h1, h2]

/-- Witness for C9 at 150000, which renders in the Lakh Cr bucket. -/
theorem c9_inr_magnitude_buckets_witness :
    (0 : ℚ) ≤ 150000 ∧ inr 150000 = render (inrSpec 150000) :=
  ⟨by norm_num, c9_inr_magnitude_buckets 150000 (by norm_num)⟩

/-- C10: the INR formatter is total — on every input below 1000, negative
amounts included, it takes the plain Crore branch with zero decimals and
returns that string without raising. -/
theorem c10_inr_small_values_plain_crore (x : ℚ) (hx : x < 1000) :
    inr x = "₹" ++ fmtFixed x 0 ++ " Cr" := by
  have h1 : ¬ (x ≥ 100000) := not_le.mpr (hx.trans (by norm_num))
  have h2 : ¬ (x ≥ 1000) := not_le.mpr hx
  unfold inr
  rw [if_neg h1, if_neg h2]

/-- Witness for C10 at the negative amount -5, rendered by the plain Crore
branch. -/
theorem c10_inr_small_values_plain_crore_witness : inr (-5) = "₹-5 Cr" :=
  (c10_inr_small_values_plain_crore (-5) (by norm_num)).trans
    (by with_unfolding_all decide)
